import Mathlib

/-!
Shallow embedding of the Vulkan renderer core of ComphiEngine
(src/Comphi/src/Comphi/Renderer/Vulkan/GraphicsContext.cpp), covering
queue-family selection, swapchain parameter selection, the per-frame
draw operation, image layout transitions, and sync-object creation.
Machine integers are modelled as Nat; Vulkan bit masks use the numeric
values of the Vulkan headers; fallible operations return Except.
-/

/-! ### Vulkan enumeration and flag constants (values from vulkan_core.h) -/

def VK_QUEUE_GRAPHICS_BIT : Nat := 1
def VK_QUEUE_COMPUTE_BIT : Nat := 2
def VK_QUEUE_TRANSFER_BIT : Nat := 4
def VK_QUEUE_SPARSE_BINDING_BIT : Nat := 8

def VK_FORMAT_B8G8R8A8_SRGB : Nat := 50
def VK_COLOR_SPACE_SRGB_NONLINEAR_KHR : Nat := 0

def VK_PIPELINE_STAGE_TOP_OF_PIPE_BIT : Nat := 1
def VK_PIPELINE_STAGE_FRAGMENT_SHADER_BIT : Nat := 128
def VK_PIPELINE_STAGE_EARLY_FRAGMENT_TESTS_BIT : Nat := 256
def VK_PIPELINE_STAGE_TRANSFER_BIT : Nat := 4096

def VK_ACCESS_SHADER_READ_BIT : Nat := 32
def VK_ACCESS_DEPTH_STENCIL_ATTACHMENT_READ_BIT : Nat := 512
def VK_ACCESS_DEPTH_STENCIL_ATTACHMENT_WRITE_BIT : Nat := 1024
def VK_ACCESS_TRANSFER_WRITE_BIT : Nat := 4096

def VK_IMAGE_ASPECT_COLOR_BIT : Nat := 1
def VK_IMAGE_ASPECT_DEPTH_BIT : Nat := 2
def VK_IMAGE_ASPECT_STENCIL_BIT : Nat := 4

def VK_FENCE_CREATE_SIGNALED_BIT : Nat := 1

/-- UINT32_MAX, the sentinel used by chooseSwapExtent. -/
def UINT32_MAX : Nat := 4294967295

/-- The VkResult codes the draw loop distinguishes, plus representatives for
the remaining non-success codes. -/
inductive VkResult where
  | success
  | suboptimalKHR
  | errorOutOfDateKHR
  | timeout
  | notReady
  | errorDeviceLost
deriving DecidableEq, Repr

/-! ### Queue family selection (GraphicsContext::findQueueFamilies) -/

/-- One entry of the vkGetPhysicalDeviceQueueFamilyProperties array, paired
with the per-index result of vkGetPhysicalDeviceSurfaceSupportKHR. -/
structure QueueFamily where
  queueFlags : Nat
  presentSupport : Bool
deriving DecidableEq, Repr

/-- The three optional indices filled in by findQueueFamilies. -/
structure QueueFamilyIndices where
  graphicsFamily : Option Nat := none
  transferFamily : Option Nat := none
  presentFamily : Option Nat := none
deriving DecidableEq, Repr

/-- Modelled from the spec: QueueFamilyIndices::isComplete is declared in
GraphicsContext.h, which is not among the provided sources; the spec states
that selection is complete only when all three indices are present. -/
def QueueFamilyIndices.isComplete (ind : QueueFamilyIndices) : Bool :=
  ind.graphicsFamily.isSome && ind.transferFamily.isSome && ind.presentFamily.isSome

/-- `graphicsQueueflags` from findQueueFamilies (line 343). -/
def graphicsQueueflags : Nat :=
  VK_QUEUE_GRAPHICS_BIT ||| VK_QUEUE_TRANSFER_BIT ||| VK_QUEUE_SPARSE_BINDING_BIT

/-- `transferQueueflags` from findQueueFamilies (line 344). -/
def transferQueueflags : Nat :=
  VK_QUEUE_TRANSFER_BIT ||| VK_QUEUE_SPARSE_BINDING_BIT

/-- The body of one iteration of the scan loop in findQueueFamilies
(lines 347..359): each predicate that holds stores the current index,
overwriting any previous value. -/
def updateIndices (qf : QueueFamily) (i : Nat) (ind : QueueFamilyIndices) :
    QueueFamilyIndices :=
  let ind := if qf.presentSupport then { ind with presentFamily := some i } else ind
  let ind := if qf.queueFlags &&& graphicsQueueflags = graphicsQueueflags then
      { ind with graphicsFamily := some i } else ind
  let ind := if qf.queueFlags &&& transferQueueflags = transferQueueflags ∧
      qf.queueFlags &&& VK_QUEUE_GRAPHICS_BIT = 0 then
      { ind with transferFamily := some i } else ind
  ind

/-- The scan loop of findQueueFamilies (lines 346..365), including the early
break once isComplete holds. -/
def findQueueFamiliesLoop : List QueueFamily → Nat → QueueFamilyIndices →
    QueueFamilyIndices
  | [], _, ind => ind
  | qf :: rest, i, ind =>
    let ind := updateIndices qf i ind
    if ind.isComplete then ind else findQueueFamiliesLoop rest (i + 1) ind

/-- GraphicsContext::findQueueFamilies (lines 325..368). A device is the list
of its queue families in index order; an empty family list throws. -/
def GraphicsContext.findQueueFamilies (queueFamilies : List QueueFamily) :
    Except String QueueFamilyIndices :=
  if queueFamilies.isEmpty then
    Except.error "failed to queueFamilies for device"
  else
    Except.ok (findQueueFamiliesLoop queueFamilies 0 {})

/-! ### Swapchain parameter selection -/

/-- VkExtent2D. -/
structure VkExtent2D where
  width : Nat
  height : Nat
deriving DecidableEq, Repr

/-- The fields of VkSurfaceCapabilitiesKHR consulted by the swapchain code. -/
structure VkSurfaceCapabilitiesKHR where
  minImageCount : Nat
  maxImageCount : Nat
  currentExtent : VkExtent2D
  minImageExtent : VkExtent2D
  maxImageExtent : VkExtent2D
deriving DecidableEq, Repr

/-- std::clamp on uint32_t values, as used by chooseSwapExtent. -/
def stdClamp (v lo hi : Nat) : Nat :=
  if v < lo then lo else if hi < v then hi else v

/-- GraphicsContext::chooseSwapExtent (lines 522..543): return the surface
current extent unless its width is the UINT32_MAX sentinel; otherwise clamp
the live framebuffer size to the min and max image extents. -/
def GraphicsContext.chooseSwapExtent (capabilities : VkSurfaceCapabilitiesKHR)
    (framebufferSize : VkExtent2D) : VkExtent2D :=
  if capabilities.currentExtent.width ≠ UINT32_MAX then
    capabilities.currentExtent
  else
    { width := stdClamp framebufferSize.width
        capabilities.minImageExtent.width capabilities.maxImageExtent.width,
      height := stdClamp framebufferSize.height
        capabilities.minImageExtent.height capabilities.maxImageExtent.height }

/-- VkSurfaceFormatKHR. -/
structure VkSurfaceFormatKHR where
  format : Nat
  colorSpace : Nat
deriving DecidableEq, Repr

/-- The scan loop of chooseSwapSurfaceFormat (lines 503..507): the first
format matching B8G8R8A8_SRGB with SRGB_NONLINEAR color space. -/
def chooseSwapSurfaceFormatLoop : List VkSurfaceFormatKHR →
    Option VkSurfaceFormatKHR
  | [] => none
  | f :: rest =>
    if f.format = VK_FORMAT_B8G8R8A8_SRGB ∧
        f.colorSpace = VK_COLOR_SPACE_SRGB_NONLINEAR_KHR then
      some f
    else
      chooseSwapSurfaceFormatLoop rest

/-- GraphicsContext::chooseSwapSurfaceFormat (lines 502..510). The C++
returns availableFormats[0] when no ideal format is found; on an empty list
that access is out of bounds, modelled as none. -/
def GraphicsContext.chooseSwapSurfaceFormat
    (availableFormats : List VkSurfaceFormatKHR) : Option VkSurfaceFormatKHR :=
  match chooseSwapSurfaceFormatLoop availableFormats with
  | some f => some f
  | none => availableFormats.head?

/-- The requested image count computed by createSwapChain (lines 576..579):
minImageCount + 1, lowered to maxImageCount only when maxImageCount > 0 and
the sum exceeds it. -/
def createSwapChainImageCount (capabilities : VkSurfaceCapabilitiesKHR) : Nat :=
  let imageCount := capabilities.minImageCount + 1
  if capabilities.maxImageCount > 0 ∧ imageCount > capabilities.maxImageCount then
    capabilities.maxImageCount
  else
    imageCount

/-- Image count as the claim words it: minImageCount + 1 clamped down to
maxImageCount for every capability report. Stated from the spec sentence, to
be compared with createSwapChainImageCount. -/
def specSwapChainImageCount (capabilities : VkSurfaceCapabilitiesKHR) : Nat :=
  min (capabilities.minImageCount + 1) capabilities.maxImageCount

/-- VkSharingMode. -/
inductive VkSharingMode where
  | exclusive
  | concurrent
deriving DecidableEq, Repr

/-- The sharing-mode fields of VkSwapchainCreateInfoKHR set by
createSwapChain. -/
structure SwapchainSharingInfo where
  imageSharingMode : VkSharingMode
  queueFamilyIndexCount : Nat
  pQueueFamilyIndices : List Nat
deriving DecidableEq, Repr

/-- The sharing-mode selection of createSwapChain (lines 592..608): when the
graphics and transfer families differ, concurrent sharing across exactly
those two indices; otherwise exclusive with no shared indices (a null
pointer, modelled as the empty list). -/
def createSwapChainSharing (graphicsFamily transferFamily : Nat) :
    SwapchainSharingInfo :=
  if graphicsFamily ≠ transferFamily then
    { imageSharingMode := VkSharingMode.concurrent,
      queueFamilyIndexCount := 2,
      pQueueFamilyIndices := [graphicsFamily, transferFamily] }
  else
    { imageSharingMode := VkSharingMode.exclusive,
      queueFamilyIndexCount := 0,
      pQueueFamilyIndices := [] }

/-! ### Image layout transitions (ImageBuffer::transitionImageLayout) -/

/-- The VkImageLayout values the transition code mentions, plus a
representative further layout. -/
inductive VkImageLayout where
  | undefined
  | transferDstOptimal
  | shaderReadOnlyOptimal
  | depthStencilAttachmentOptimal
  | colorAttachmentOptimal
deriving DecidableEq, Repr

/-- CommandQueueOperation, the queue a short-lived command buffer targets. -/
inductive CommandQueueOperation where
  | MEM_TransferCommand
  | MEM_GraphicsCommand
deriving DecidableEq, Repr

/-- The fields of VkImageMemoryBarrier the transition code fills in. -/
structure VkImageMemoryBarrier where
  oldLayout : VkImageLayout
  newLayout : VkImageLayout
  aspectMask : Nat
  srcAccessMask : Nat
  dstAccessMask : Nat
  srcQueueFamilyIndex : Nat
  dstQueueFamilyIndex : Nat
deriving DecidableEq, Repr

/-- Everything a successful transitionImageLayout submits inside its
short-lived command buffer, plus the layout the member field is updated to. -/
structure TransitionSubmission where
  queueOperation : CommandQueueOperation
  sourceStage : Nat
  destinationStage : Nat
  barrier : VkImageMemoryBarrier
  updatedImageLayout : VkImageLayout
deriving DecidableEq, Repr

/-- VK_FORMAT_D32_SFLOAT_S8_UINT. -/
def VK_FORMAT_D32_SFLOAT_S8_UINT : Nat := 130

/-- VK_FORMAT_D24_UNORM_S8_UINT. -/
def VK_FORMAT_D24_UNORM_S8_UINT : Nat := 129

/-- ImageBuffer::hasStencilComponent (lines 1378..1380). -/
def ImageBuffer.hasStencilComponent (imageFormat : Nat) : Bool :=
  imageFormat = VK_FORMAT_D32_SFLOAT_S8_UINT ||
    imageFormat = VK_FORMAT_D24_UNORM_S8_UINT

/-- The aspect-mask selection of transitionImageLayout (lines 1390..1399). -/
def transitionAspectMask (imageFormat : Nat) (newLayout : VkImageLayout) : Nat :=
  if newLayout = VkImageLayout.depthStencilAttachmentOptimal then
    if ImageBuffer.hasStencilComponent imageFormat then
      VK_IMAGE_ASPECT_DEPTH_BIT ||| VK_IMAGE_ASPECT_STENCIL_BIT
    else
      VK_IMAGE_ASPECT_DEPTH_BIT
  else
    VK_IMAGE_ASPECT_COLOR_BIT

/-- ImageBuffer::transitionImageLayout (lines 1382..1470): imageLayout is the
current layout member; transferFamily and graphicsFamily are the handler
queue-family indices. Exactly three (old, new) layout pairs select a barrier
configuration; every other pair throws "unsupported layout transition!"
before any command buffer is begun, so an error value carries no
submission. -/
def ImageBuffer.transitionImageLayout (imageLayout newLayout : VkImageLayout)
    (imageFormat transferFamily graphicsFamily : Nat) :
    Except String TransitionSubmission :=
  let aspectMask := transitionAspectMask imageFormat newLayout
  if imageLayout = VkImageLayout.undefined ∧
      newLayout = VkImageLayout.transferDstOptimal then
    Except.ok
      { queueOperation := CommandQueueOperation.MEM_TransferCommand,
        sourceStage := VK_PIPELINE_STAGE_TOP_OF_PIPE_BIT,
        destinationStage := VK_PIPELINE_STAGE_TRANSFER_BIT,
        barrier :=
          { oldLayout := imageLayout, newLayout := newLayout,
            aspectMask := aspectMask,
            srcAccessMask := 0,
            dstAccessMask := VK_ACCESS_TRANSFER_WRITE_BIT,
            srcQueueFamilyIndex := transferFamily,
            dstQueueFamilyIndex := transferFamily },
        updatedImageLayout := newLayout }
  else if imageLayout = VkImageLayout.transferDstOptimal ∧
      newLayout = VkImageLayout.shaderReadOnlyOptimal then
    Except.ok
      { queueOperation := CommandQueueOperation.MEM_GraphicsCommand,
        sourceStage := VK_PIPELINE_STAGE_TRANSFER_BIT,
        destinationStage := VK_PIPELINE_STAGE_FRAGMENT_SHADER_BIT,
        barrier :=
          { oldLayout := imageLayout, newLayout := newLayout,
            aspectMask := aspectMask,
            srcAccessMask := VK_ACCESS_TRANSFER_WRITE_BIT,
            dstAccessMask := VK_ACCESS_SHADER_READ_BIT,
            srcQueueFamilyIndex := transferFamily,
            dstQueueFamilyIndex := graphicsFamily },
        updatedImageLayout := newLayout }
  else if imageLayout = VkImageLayout.undefined ∧
      newLayout = VkImageLayout.depthStencilAttachmentOptimal then
    Except.ok
      { queueOperation := CommandQueueOperation.MEM_GraphicsCommand,
        sourceStage := VK_PIPELINE_STAGE_TOP_OF_PIPE_BIT,
        destinationStage := VK_PIPELINE_STAGE_EARLY_FRAGMENT_TESTS_BIT,
        barrier :=
          { oldLayout := imageLayout, newLayout := newLayout,
            aspectMask := aspectMask,
            srcAccessMask := 0,
            dstAccessMask := VK_ACCESS_DEPTH_STENCIL_ATTACHMENT_READ_BIT |||
              VK_ACCESS_DEPTH_STENCIL_ATTACHMENT_WRITE_BIT,
            srcQueueFamilyIndex := transferFamily,
            dstQueueFamilyIndex := graphicsFamily },
        updatedImageLayout := newLayout }
  else
    Except.error "unsupported layout transition!"

/-! ### The per-frame draw operation (GraphicsContext::Draw) -/

/-- The observable actions of one GraphicsContext::Draw call, in program
order. -/
inductive DrawEvent where
  | waitFences (slot : Nat)
  | logError (msg : String)
  | recreateSwapChain
  | resetFences (slot : Nat)
  | resetCommandBuffer (slot : Nat)
  | recordCommandBuffer (slot : Nat)
  | updateUniformBuffer (slot : Nat)
  | queueSubmit (slot : Nat)
  | queuePresent
  | clearResizedFlag
deriving DecidableEq, Repr

/-- How one Draw call ends: an early return after swapchain recreation, a
thrown runtime error, or normal completion carrying the next currentFrame
value and the resulting framebufferResized flag. -/
inductive DrawOutcome where
  | earlyReturn (framebufferResized : Bool)
  | fatal (msg : String)
  | completed (nextFrame : Nat) (framebufferResized : Bool)
deriving DecidableEq, Repr

/-- The inputs one Draw call reads: the VkResult of each driver call it
issues, the framebufferResized flag, the current frame slot, and
MAX_FRAMES_IN_FLIGHT. -/
structure DrawInput where
  acquireResult : VkResult
  submitResult : VkResult
  presentResult : VkResult
  framebufferResized : Bool
  currentFrame : Nat
  maxFramesInFlight : Nat
deriving DecidableEq, Repr

/-- Draw from the fence reset onward (lines 1160..1215): reset and re-record
the slot, update its uniform buffer, submit (fatal on failure), present, then
handle the present result and advance the frame slot. -/
def drawFromFenceReset (inp : DrawInput) (pre : List DrawEvent) :
    List DrawEvent × DrawOutcome :=
  let ev := pre ++
    [DrawEvent.resetFences inp.currentFrame,
     DrawEvent.resetCommandBuffer inp.currentFrame,
     DrawEvent.recordCommandBuffer inp.currentFrame,
     DrawEvent.updateUniformBuffer inp.currentFrame,
     DrawEvent.queueSubmit inp.currentFrame]
  if inp.submitResult ≠ VkResult.success then
    (ev, DrawOutcome.fatal "failed to submit draw command buffer!")
  else
    let ev := ev ++ [DrawEvent.queuePresent]
    if inp.presentResult = VkResult.errorOutOfDateKHR ∨
        inp.presentResult = VkResult.suboptimalKHR ∨
        inp.framebufferResized = true then
      (ev ++ [DrawEvent.clearResizedFlag, DrawEvent.recreateSwapChain],
        DrawOutcome.completed ((inp.currentFrame + 1) % inp.maxFramesInFlight)
          false)
    else if inp.presentResult ≠ VkResult.success then
      (ev, DrawOutcome.fatal "failed to present swap chain image!")
    else
      (ev, DrawOutcome.completed ((inp.currentFrame + 1) % inp.maxFramesInFlight)
        inp.framebufferResized)

/-- GraphicsContext::Draw (lines 1132..1215). The acquire handling mirrors
the source nesting exactly: a non-success acquire result only logs and then
falls through to the fence reset; the out-of-date and hard-error checks sit
in the else branch of that test, where acquireResult equals success, so they
can never fire. -/
def GraphicsContext.Draw (inp : DrawInput) : List DrawEvent × DrawOutcome :=
  let ev := [DrawEvent.waitFences inp.currentFrame]
  if inp.acquireResult ≠ VkResult.success then
    drawFromFenceReset inp (ev ++ [DrawEvent.logError "failed to acquireNextImage!"])
  else if inp.acquireResult = VkResult.errorOutOfDateKHR then
    (ev ++ [DrawEvent.recreateSwapChain],
      DrawOutcome.earlyReturn inp.framebufferResized)
  else if inp.acquireResult ≠ VkResult.success ∧
      inp.acquireResult ≠ VkResult.suboptimalKHR then
    (ev ++ [DrawEvent.logError "failed to acquire swap chain image!"],
      DrawOutcome.fatal "failed to acquire swap chain image!")
  else
    drawFromFenceReset inp ev

/-! ### Sync object creation (GraphicsContext::createSyncObjects) -/

/-- The creation-time fields of VkFenceCreateInfo. -/
structure VkFenceCreateInfo where
  flags : Nat
deriving DecidableEq, Repr

/-- A fence as the driver models it: created signaled exactly when the
creation flags contain VK_FENCE_CREATE_SIGNALED_BIT. -/
structure VkFence where
  signaled : Bool
deriving DecidableEq, Repr

/-- vkCreateFence semantics: the fence starts signaled iff the create flags
include VK_FENCE_CREATE_SIGNALED_BIT. -/
def vkCreateFence (info : VkFenceCreateInfo) : VkFence :=
  { signaled := info.flags &&& VK_FENCE_CREATE_SIGNALED_BIT ≠ 0 }

/-- vkWaitForFences semantics on one fence: the wait blocks exactly when the
fence is not yet signaled. -/
def vkWaitForFencesBlocks (fence : VkFence) : Bool :=
  !fence.signaled

/-- The fence create info built by createSyncObjects (lines 972..974):
flags = VK_FENCE_CREATE_SIGNALED_BIT. -/
def createSyncObjectsFenceInfo : VkFenceCreateInfo :=
  { flags := VK_FENCE_CREATE_SIGNALED_BIT }

/-- The inFlightFences array built by the loop of createSyncObjects
(lines 964..987): one fence per frame slot, each created from
createSyncObjectsFenceInfo. -/
def GraphicsContext.createSyncObjects (maxFramesInFlight : Nat) : List VkFence :=
  List.replicate maxFramesInFlight (vkCreateFence createSyncObjectsFenceInfo)

/-! ### Theorems -/

/-- Claim C1: the spec says an out-of-date acquire aborts the frame and
triggers swapchain recreation, with no fence reset and no submission, and
that hard acquire errors are fatal. The code contradicts this: the
recreation and fatal-error branches sit inside the else branch of the
result-not-success test, where the result equals success, so they are
unreachable. An out-of-date acquire is only logged, after which the frame
resets the fence, records, submits and presents as if the acquire had
succeeded, and recreation is never triggered. This theorem evaluates the
draw operation at the failing input. -/
theorem C1_draw_acquire_out_of_date_code_bug :
    GraphicsContext.Draw
        ⟨VkResult.errorOutOfDateKHR, VkResult.success, VkResult.success,
          false, 0, 2⟩ =
      ([DrawEvent.waitFences 0,
        DrawEvent.logError "failed to acquireNextImage!",
        DrawEvent.resetFences 0, DrawEvent.resetCommandBuffer 0,
        DrawEvent.recordCommandBuffer 0, DrawEvent.updateUniformBuffer 0,
        DrawEvent.queueSubmit 0, DrawEvent.queuePresent],
       DrawOutcome.completed 1 false) ∧
    DrawEvent.recreateSwapChain ∉
      (GraphicsContext.Draw
        ⟨VkResult.errorOutOfDateKHR, VkResult.success, VkResult.success,
          false, 0, 2⟩).1 :=
  ⟨rfl, by decide⟩

/-- Claim C2 counterexample: a device with exactly one queue family that
supports graphics, transfer, sparse binding and presentation. The claim says
all three indices resolve to family 0 and isComplete is true; the code
leaves transferFamily unset, because the transfer slot only accepts a family
without the graphics bit, so isComplete is false. -/
theorem C2_counterexample :
    GraphicsContext.findQueueFamilies [⟨13, true⟩] =
      Except.ok ⟨some 0, none, some 0⟩ ∧
    QueueFamilyIndices.isComplete ⟨some 0, none, some 0⟩ = false ∧
    GraphicsContext.findQueueFamilies [⟨13, true⟩] ≠
      Except.ok ⟨some 0, some 0, some 0⟩ := by
  refine ⟨rfl, rfl, fun h => ?_⟩
  rw [show GraphicsContext.findQueueFamilies [⟨13, true⟩] =
    Except.ok ⟨some 0, none, some 0⟩ from rfl] at h
  exact Option.noConfusion
    (congrArg QueueFamilyIndices.transferFamily (Except.ok.inj h))

/-- Claim C2, amended: for a device exposing one queue family that is
graphics-capable (graphics, transfer and sparse-binding flags) and
present-capable, graphics and present resolve to that family, but the
transfer index stays unset — the code only accepts a family without the
graphics bit for the transfer slot — so isComplete returns false; transfer
and graphics never alias the same family. -/
theorem C2_amended (flags : Nat) (present : Bool)
    (hg : flags &&& graphicsQueueflags = graphicsQueueflags)
    (hG : flags &&& VK_QUEUE_GRAPHICS_BIT ≠ 0)
    (hp : present = true) :
    GraphicsContext.findQueueFamilies [⟨flags, present⟩] =
      Except.ok ⟨some 0, none, some 0⟩ ∧
    QueueFamilyIndices.isComplete ⟨some 0, none, some 0⟩ = false := by
  subst hp
  have h1 : updateIndices ⟨flags, true⟩ 0 {} = ⟨some 0, none, some 0⟩ := by
    simp [updateIndices, hg, hG]
  refine ⟨?_, rfl⟩
  simp [GraphicsContext.findQueueFamilies, findQueueFamiliesLoop, h1,
    QueueFamilyIndices.isComplete]

/-- Claim C2 amended, witnessed on a family with the compute bit as well. -/
theorem C2_amended_witness :
    GraphicsContext.findQueueFamilies [⟨15, true⟩] =
      Except.ok ⟨some 0, none, some 0⟩ ∧
    QueueFamilyIndices.isComplete ⟨some 0, none, some 0⟩ = false :=
  C2_amended 15 true (by decide) (by decide) rfl

/-- Scanning stops early: once the indices are complete, queue families
after the completing one are never examined, so appending further families
does not change the result. -/
theorem findQueueFamiliesLoop_append (rest : List QueueFamily) :
    ∀ (fams : List QueueFamily) (i : Nat) (ind : QueueFamilyIndices),
      ind.isComplete = false →
      (findQueueFamiliesLoop fams i ind).isComplete = true →
      findQueueFamiliesLoop (fams ++ rest) i ind =
        findQueueFamiliesLoop fams i ind := by
  intro fams
  induction fams with
  | nil =>
    intro i ind h0 h1
    rw [findQueueFamiliesLoop] at h1
    rw [h0] at h1
    exact absurd h1 (by decide)
  | cons qf fs ih =>
    intro i ind h0 h1
    rw [List.cons_append, findQueueFamiliesLoop, findQueueFamiliesLoop]
    rw [findQueueFamiliesLoop] at h1
    by_cases hc : (updateIndices qf i ind).isComplete = true
    · rw [if_pos hc] at h1 ⊢
      rw [if_pos hc]
    · rw [if_neg hc] at h1 ⊢
      rw [if_neg hc]
      exact ih (i + 1) (updateIndices qf i ind) (Bool.eq_false_iff.mpr hc) h1

/-- Claim C3 counterexample: three families, of which families 0 and 1 are
both graphics-capable and present-capable and family 2 is transfer-only.
Family 0 satisfies the graphics predicate first, yet the scan selects
family 1 for graphics and present: each later match overwrites the earlier
selection, so the FIRST matching family does not win. -/
theorem C3_counterexample :
    ((13 : Nat) &&& graphicsQueueflags = graphicsQueueflags) ∧
    (⟨13, true⟩ : QueueFamily).presentSupport = true ∧
    GraphicsContext.findQueueFamilies [⟨13, true⟩, ⟨13, true⟩, ⟨12, false⟩] =
      Except.ok ⟨some 1, some 2, some 1⟩ := by
  refine ⟨by decide, rfl, rfl⟩

/-- Claim C3, amended: for each of the three predicates, every family in
scan order that satisfies the predicate overwrites the selected index, so
the LAST satisfying family scanned before the loop stops is the one
selected; the early stop itself is as claimed: the scan ends as soon as all
three slots are filled, and families after that point are never examined. -/
theorem C3_amended :
    (∀ (qf : QueueFamily) (i : Nat) (ind : QueueFamilyIndices),
      qf.presentSupport = true → (updateIndices qf i ind).presentFamily = some i) ∧
    (∀ (qf : QueueFamily) (i : Nat) (ind : QueueFamilyIndices),
      qf.queueFlags &&& graphicsQueueflags = graphicsQueueflags →
      (updateIndices qf i ind).graphicsFamily = some i) ∧
    (∀ (qf : QueueFamily) (i : Nat) (ind : QueueFamilyIndices),
      qf.queueFlags &&& transferQueueflags = transferQueueflags →
      qf.queueFlags &&& VK_QUEUE_GRAPHICS_BIT = 0 →
      (updateIndices qf i ind).transferFamily = some i) ∧
    (∀ (fams rest : List QueueFamily) (r : QueueFamilyIndices),
      GraphicsContext.findQueueFamilies fams = Except.ok r →
      r.isComplete = true →
      GraphicsContext.findQueueFamilies (fams ++ rest) = Except.ok r) := by
  refine ⟨?_, ?_, ?_, ?_⟩
  · intro qf i ind h
    simp only [updateIndices, h, if_true]
    repeat' split
    all_goals rfl
  · intro qf i ind h
    simp only [updateIndices, h, if_true]
    repeat' split
    all_goals rfl
  · intro qf i ind h1 h2
    simp only [updateIndices, h1, h2, and_self, if_true]
  · intro fams rest r hok hc
    cases fams with
    | nil =>
      rw [show GraphicsContext.findQueueFamilies [] =
        Except.error "failed to queueFamilies for device" from rfl] at hok
      exact Except.noConfusion hok
    | cons f fs =>
      rw [GraphicsContext.findQueueFamilies, if_neg (by simp)] at hok
      rw [List.cons_append, GraphicsContext.findQueueFamilies,
        if_neg (by simp), ← List.cons_append]
      have hr := Except.ok.inj hok
      rw [findQueueFamiliesLoop_append rest (f :: fs) 0 {} rfl (hr ▸ hc), hok]

/-- Claim C3 amended, witnessed: a later graphics-capable family overwrites
an earlier selection, and once the scan of the first two families fills all
three slots, an appended third family does not change the result. -/
theorem C3_amended_witness :
    (updateIndices ⟨13, true⟩ 5 ⟨some 0, none, none⟩).graphicsFamily = some 5 ∧
    GraphicsContext.findQueueFamilies ([⟨13, true⟩, ⟨12, true⟩] ++ [⟨13, true⟩]) =
      Except.ok ⟨some 0, some 1, some 1⟩ :=
  ⟨C3_amended.2.1 ⟨13, true⟩ 5 ⟨some 0, none, none⟩ (by decide),
   C3_amended.2.2.2 [⟨13, true⟩, ⟨12, true⟩] [⟨13, true⟩]
     ⟨some 0, some 1, some 1⟩ rfl rfl⟩

/-- Claim C4: for every (fromLayout, toLayout) pair other than the three
supported pairs — Undefined to TransferDst, TransferDst to ShaderReadOnly,
Undefined to DepthStencilAttachment — the transition fails with the
"unsupported layout transition!" error, and since the throw happens before
beginCommandBuffer, no command buffer is begun and no barrier is
submitted: the error result carries no submission. -/
theorem C4_unsupported_transition
    (imageLayout newLayout : VkImageLayout)
    (imageFormat transferFamily graphicsFamily : Nat)
    (h : ¬ ((imageLayout = VkImageLayout.undefined ∧
              newLayout = VkImageLayout.transferDstOptimal) ∨
            (imageLayout = VkImageLayout.transferDstOptimal ∧
              newLayout = VkImageLayout.shaderReadOnlyOptimal) ∨
            (imageLayout = VkImageLayout.undefined ∧
              newLayout = VkImageLayout.depthStencilAttachmentOptimal))) :
    ImageBuffer.transitionImageLayout imageLayout newLayout imageFormat
        transferFamily graphicsFamily =
      Except.error "unsupported layout transition!" := by
  have h1 : ¬ (imageLayout = VkImageLayout.undefined ∧
      newLayout = VkImageLayout.transferDstOptimal) :=
    fun hc => h (Or.inl hc)
  have h2 : ¬ (imageLayout = VkImageLayout.transferDstOptimal ∧
      newLayout = VkImageLayout.shaderReadOnlyOptimal) :=
    fun hc => h (Or.inr (Or.inl hc))
  have h3 : ¬ (imageLayout = VkImageLayout.undefined ∧
      newLayout = VkImageLayout.depthStencilAttachmentOptimal) :=
    fun hc => h (Or.inr (Or.inr hc))
  simp only [ImageBuffer.transitionImageLayout, h1, h2, h3, if_false]

/-- Claim C4, witnessed at the pair (ShaderReadOnly, Undefined) named by the
spec as an unsupported transition. -/
theorem C4_unsupported_transition_witness :
    ImageBuffer.transitionImageLayout VkImageLayout.shaderReadOnlyOptimal
        VkImageLayout.undefined VK_FORMAT_B8G8R8A8_SRGB 1 0 =
      Except.error "unsupported layout transition!" :=
  C4_unsupported_transition VkImageLayout.shaderReadOnlyOptimal
    VkImageLayout.undefined VK_FORMAT_B8G8R8A8_SRGB 1 0 (by decide)

/-- std::clamp agrees with clamping into the interval [lo, hi] whenever the
interval is well-formed. -/
theorem stdClamp_eq_min_max (v lo hi : Nat) (h : lo ≤ hi) :
    stdClamp v lo hi = min (max v lo) hi := by
  unfold stdClamp
  rcases Nat.lt_or_ge v lo with h1 | h1
  · rw [if_pos h1, max_eq_right (le_of_lt h1), min_eq_left h]
  · rw [if_neg (not_lt.mpr h1), max_eq_left h1]
    rcases Nat.lt_or_ge hi v with h2 | h2
    · rw [if_pos h2, min_eq_right (le_of_lt h2)]
    · rw [if_neg (not_lt.mpr h2), min_eq_left h2]

/-- Claim C5: extent selection returns the reported current extent whenever
its width is not the UINT32_MAX sentinel; when the current extent is the
sentinel, it returns the live framebuffer size with width and height each
clamped into the [min, max] image extent range reported by the surface. -/
theorem C5_choose_swap_extent (capabilities : VkSurfaceCapabilitiesKHR)
    (framebufferSize : VkExtent2D)
    (hw : capabilities.minImageExtent.width ≤ capabilities.maxImageExtent.width)
    (hh : capabilities.minImageExtent.height ≤ capabilities.maxImageExtent.height) :
    (capabilities.currentExtent.width ≠ UINT32_MAX →
      GraphicsContext.chooseSwapExtent capabilities framebufferSize =
        capabilities.currentExtent) ∧
    (capabilities.currentExtent = ⟨UINT32_MAX, UINT32_MAX⟩ →
      GraphicsContext.chooseSwapExtent capabilities framebufferSize =
        ⟨min (max framebufferSize.width capabilities.minImageExtent.width)
           capabilities.maxImageExtent.width,
         min (max framebufferSize.height capabilities.minImageExtent.height)
           capabilities.maxImageExtent.height⟩) := by
  constructor
  · intro h
    rw [GraphicsContext.chooseSwapExtent, if_pos h]
  · intro h
    rw [GraphicsContext.chooseSwapExtent, if_neg (by rw [h]; simp),
      stdClamp_eq_min_max _ _ _ hw, stdClamp_eq_min_max _ _ _ hh]

/-- Claim C5, witnessed at the instance of the spec: minExtent (1,1),
maxExtent (4096,4096), sentinel current extent, framebuffer (1920,1080)
yields (1920,1080). -/
theorem C5_choose_swap_extent_witness :
    GraphicsContext.chooseSwapExtent
        ⟨2, 3, ⟨UINT32_MAX, UINT32_MAX⟩, ⟨1, 1⟩, ⟨4096, 4096⟩⟩ ⟨1920, 1080⟩ =
      ⟨1920, 1080⟩ := by
  rw [(C5_choose_swap_extent
    ⟨2, 3, ⟨UINT32_MAX, UINT32_MAX⟩, ⟨1, 1⟩, ⟨4096, 4096⟩⟩ ⟨1920, 1080⟩
    (by decide) (by decide)).2 rfl]
  decide

/-- If some available format is the ideal pair, the scan returns the ideal
pair. -/
theorem chooseSwapSurfaceFormatLoop_ideal (fs : List VkSurfaceFormatKHR)
    (h : ∃ f ∈ fs, f.format = VK_FORMAT_B8G8R8A8_SRGB ∧
      f.colorSpace = VK_COLOR_SPACE_SRGB_NONLINEAR_KHR) :
    chooseSwapSurfaceFormatLoop fs =
      some ⟨VK_FORMAT_B8G8R8A8_SRGB, VK_COLOR_SPACE_SRGB_NONLINEAR_KHR⟩ := by
  induction fs with
  | nil => simp at h
  | cons f rest ih =>
    by_cases hf : f.format = VK_FORMAT_B8G8R8A8_SRGB ∧
        f.colorSpace = VK_COLOR_SPACE_SRGB_NONLINEAR_KHR
    · rw [chooseSwapSurfaceFormatLoop, if_pos hf]
      cases f
      cases hf.1
      cases hf.2
      rfl
    · rw [chooseSwapSurfaceFormatLoop, if_neg hf]
      apply ih
      rcases h with ⟨g, hg, hgi⟩
      rcases List.mem_cons.mp hg with hgf | hgr
      · exact absurd (hgf ▸ hgi) hf
      · exact ⟨g, hgr, hgi⟩

/-- If no available format is the ideal pair, the scan returns none. -/
theorem chooseSwapSurfaceFormatLoop_none (fs : List VkSurfaceFormatKHR)
    (h : ∀ f ∈ fs, ¬ (f.format = VK_FORMAT_B8G8R8A8_SRGB ∧
      f.colorSpace = VK_COLOR_SPACE_SRGB_NONLINEAR_KHR)) :
    chooseSwapSurfaceFormatLoop fs = none := by
  induction fs with
  | nil => rfl
  | cons f rest ih =>
    rw [chooseSwapSurfaceFormatLoop, if_neg (h f (List.mem_cons_self f rest))]
    exact ih fun g hg => h g (List.mem_cons_of_mem f hg)

/-- Claim C6: for every non-empty list of available surface formats, the
selection returns some format; it returns the ideal pair (B8G8R8A8_SRGB
with SRGB_NONLINEAR color space) when that pair is present, and the first
reported format otherwise. -/
theorem C6_choose_surface_format (fs : List VkSurfaceFormatKHR)
    (hne : fs ≠ []) :
    (GraphicsContext.chooseSwapSurfaceFormat fs).isSome = true ∧
    ((∃ f ∈ fs, f.format = VK_FORMAT_B8G8R8A8_SRGB ∧
        f.colorSpace = VK_COLOR_SPACE_SRGB_NONLINEAR_KHR) →
      GraphicsContext.chooseSwapSurfaceFormat fs =
        some ⟨VK_FORMAT_B8G8R8A8_SRGB, VK_COLOR_SPACE_SRGB_NONLINEAR_KHR⟩) ∧
    ((∀ f ∈ fs, ¬ (f.format = VK_FORMAT_B8G8R8A8_SRGB ∧
        f.colorSpace = VK_COLOR_SPACE_SRGB_NONLINEAR_KHR)) →
      GraphicsContext.chooseSwapSurfaceFormat fs = fs.head?) := by
  refine ⟨?_, ?_, ?_⟩
  · rw [GraphicsContext.chooseSwapSurfaceFormat]
    cases hm : chooseSwapSurfaceFormatLoop fs with
    | some f => rfl
    | none =>
      cases fs with
      | nil => exact absurd rfl hne
      | cons f rest => rfl
  · intro h
    rw [GraphicsContext.chooseSwapSurfaceFormat,
      chooseSwapSurfaceFormatLoop_ideal fs h]
  · intro h
    rw [GraphicsContext.chooseSwapSurfaceFormat,
      chooseSwapSurfaceFormatLoop_none fs h]

/-- Claim C6, witnessed on a list containing the ideal pair in second
position and on a list without the ideal pair. -/
theorem C6_choose_surface_format_witness :
    GraphicsContext.chooseSwapSurfaceFormat [⟨44, 0⟩, ⟨50, 0⟩] =
      some ⟨VK_FORMAT_B8G8R8A8_SRGB, VK_COLOR_SPACE_SRGB_NONLINEAR_KHR⟩ ∧
    GraphicsContext.chooseSwapSurfaceFormat [⟨44, 7⟩, ⟨50, 7⟩] =
      [(⟨44, 7⟩ : VkSurfaceFormatKHR), ⟨50, 7⟩].head? :=
  ⟨(C6_choose_surface_format [⟨44, 0⟩, ⟨50, 0⟩] (by decide)).2.1
     ⟨⟨50, 0⟩, by decide, by decide⟩,
   (C6_choose_surface_format [⟨44, 7⟩, ⟨50, 7⟩] (by decide)).2.2 (by decide)⟩

/-- Every draw call reaches the fence reset and the submission path: the
out-of-date and hard-error acquire branches are unreachable, so Draw always
equals drawFromFenceReset, with the error log prepended exactly when the
acquire result is not success. -/
theorem Draw_eq_drawFromFenceReset (inp : DrawInput) :
    GraphicsContext.Draw inp =
      drawFromFenceReset inp
        ([DrawEvent.waitFences inp.currentFrame] ++
          (if inp.acquireResult ≠ VkResult.success then
            [DrawEvent.logError "failed to acquireNextImage!"] else [])) := by
  by_cases h : inp.acquireResult = VkResult.success
  · rw [GraphicsContext.Draw, if_neg (by simp [h]), if_neg (by simp [h]),
      if_neg (by simp [h]), if_neg (by simp [h])]
    simp
  · rw [GraphicsContext.Draw, if_pos h, if_pos h]

/-- Claim C7: when the submit call succeeded, so that the presentation call
is reached, a present result of out-of-date or suboptimal, or an externally
set framebufferResized flag, leads to the resize flag being cleared and
swapchain recreation being triggered, with the frame completing normally;
every other non-success present result is fatal. -/
theorem C7_present_result_handling (inp : DrawInput)
    (hsubmit : inp.submitResult = VkResult.success) :
    ((inp.presentResult = VkResult.errorOutOfDateKHR ∨
        inp.presentResult = VkResult.suboptimalKHR ∨
        inp.framebufferResized = true) →
      (GraphicsContext.Draw inp).2 =
        DrawOutcome.completed ((inp.currentFrame + 1) % inp.maxFramesInFlight)
          false ∧
      DrawEvent.clearResizedFlag ∈ (GraphicsContext.Draw inp).1 ∧
      DrawEvent.recreateSwapChain ∈ (GraphicsContext.Draw inp).1) ∧
    ((inp.presentResult ≠ VkResult.errorOutOfDateKHR ∧
        inp.presentResult ≠ VkResult.suboptimalKHR ∧
        inp.presentResult ≠ VkResult.success ∧
        inp.framebufferResized = false) →
      (GraphicsContext.Draw inp).2 =
        DrawOutcome.fatal "failed to present swap chain image!") := by
  rw [Draw_eq_drawFromFenceReset inp]
  rw [drawFromFenceReset, if_neg (by simp [hsubmit])]
  constructor
  · intro h
    rw [if_pos h]
    refine ⟨rfl, ?_, ?_⟩ <;> simp
  · intro h
    rw [if_neg (by simp [h.1, h.2.1, h.2.2.2]), if_pos h.2.2.1]

/-- Claim C7, witnessed: an out-of-date present result clears the flag and
recreates the swapchain with the frame completing, and a device-lost
present result is fatal. -/
theorem C7_present_result_handling_witness :
    ((GraphicsContext.Draw
        ⟨VkResult.success, VkResult.success, VkResult.errorOutOfDateKHR,
          false, 0, 2⟩).2 = DrawOutcome.completed ((0 + 1) % 2) false ∧
      DrawEvent.clearResizedFlag ∈ (GraphicsContext.Draw
        ⟨VkResult.success, VkResult.success, VkResult.errorOutOfDateKHR,
          false, 0, 2⟩).1 ∧
      DrawEvent.recreateSwapChain ∈ (GraphicsContext.Draw
        ⟨VkResult.success, VkResult.success, VkResult.errorOutOfDateKHR,
          false, 0, 2⟩).1) ∧
    (GraphicsContext.Draw
        ⟨VkResult.success, VkResult.success, VkResult.errorDeviceLost,
          false, 0, 2⟩).2 =
      DrawOutcome.fatal "failed to present swap chain image!" :=
  ⟨(C7_present_result_handling
      ⟨VkResult.success, VkResult.success, VkResult.errorOutOfDateKHR,
        false, 0, 2⟩ rfl).1 (Or.inl rfl),
   (C7_present_result_handling
      ⟨VkResult.success, VkResult.success, VkResult.errorDeviceLost,
        false, 0, 2⟩ rfl).2 ⟨by decide, by decide, by decide, rfl⟩⟩

/-- Claim C8 counterexample: a surface reporting minImageCount 2 and
maxImageCount 0 — the Vulkan encoding for "no maximum". The claim, read
over every capability report, asks for min(min+1, max) = 0; the code keeps
min+1 = 3 because it clamps only when maxImageCount is positive. -/
theorem C8_counterexample :
    createSwapChainImageCount ⟨2, 0, ⟨0, 0⟩, ⟨0, 0⟩, ⟨0, 0⟩⟩ = 3 ∧
    specSwapChainImageCount ⟨2, 0, ⟨0, 0⟩, ⟨0, 0⟩, ⟨0, 0⟩⟩ = 0 ∧
    createSwapChainImageCount ⟨2, 0, ⟨0, 0⟩, ⟨0, 0⟩, ⟨0, 0⟩⟩ ≠
      specSwapChainImageCount ⟨2, 0, ⟨0, 0⟩, ⟨0, 0⟩, ⟨0, 0⟩⟩ := by
  refine ⟨rfl, rfl, by decide⟩

/-- Claim C8, amended: the requested image count is minImageCount + 1,
clamped down to maxImageCount whenever the surface reports a positive
maximum; when maxImageCount is 0, meaning no maximum, the count stays
minImageCount + 1 unclamped. -/
theorem C8_amended (capabilities : VkSurfaceCapabilitiesKHR) :
    (capabilities.maxImageCount > 0 →
      createSwapChainImageCount capabilities =
        min (capabilities.minImageCount + 1) capabilities.maxImageCount) ∧
    (capabilities.maxImageCount = 0 →
      createSwapChainImageCount capabilities =
        capabilities.minImageCount + 1) := by
  constructor
  · intro h
    rw [createSwapChainImageCount]
    rcases Nat.lt_or_ge capabilities.maxImageCount
        (capabilities.minImageCount + 1) with h1 | h1
    · rw [if_pos ⟨h, h1⟩, min_eq_right (le_of_lt h1)]
    · rw [if_neg (fun hc => absurd h1 (not_le.mpr hc.2)), min_eq_left h1]
  · intro h
    rw [createSwapChainImageCount, if_neg (fun hc => by omega)]

/-- Claim C8 amended, witnessed with a positive maximum that binds, a
positive maximum that does not bind, and a zero maximum. -/
theorem C8_amended_witness :
    createSwapChainImageCount ⟨2, 3, ⟨0, 0⟩, ⟨0, 0⟩, ⟨0, 0⟩⟩ =
      min (2 + 1) 3 ∧
    createSwapChainImageCount ⟨1, 8, ⟨0, 0⟩, ⟨0, 0⟩, ⟨0, 0⟩⟩ =
      min (1 + 1) 8 ∧
    createSwapChainImageCount ⟨2, 0, ⟨0, 0⟩, ⟨0, 0⟩, ⟨0, 0⟩⟩ = 2 + 1 :=
  ⟨(C8_amended ⟨2, 3, ⟨0, 0⟩, ⟨0, 0⟩, ⟨0, 0⟩⟩).1 (by decide),
   (C8_amended ⟨1, 8, ⟨0, 0⟩, ⟨0, 0⟩, ⟨0, 0⟩⟩).1 (by decide),
   (C8_amended ⟨2, 0, ⟨0, 0⟩, ⟨0, 0⟩, ⟨0, 0⟩⟩).2 rfl⟩

/-- Claim C9: swapchain creation selects exclusive sharing with zero shared
queue-family indices exactly when the selected graphics and transfer
families are equal, and concurrent sharing listing exactly the two indices
graphics then transfer otherwise. -/
theorem C9_sharing_mode (graphicsFamily transferFamily : Nat) :
    (graphicsFamily = transferFamily →
      createSwapChainSharing graphicsFamily transferFamily =
        ⟨VkSharingMode.exclusive, 0, []⟩) ∧
    (graphicsFamily ≠ transferFamily →
      createSwapChainSharing graphicsFamily transferFamily =
        ⟨VkSharingMode.concurrent, 2, [graphicsFamily, transferFamily]⟩) := by
  constructor
  · intro h
    rw [createSwapChainSharing, if_neg (fun hc => hc h)]
  · intro h
    rw [createSwapChainSharing, if_pos h]

/-- Claim C9, witnessed at an aliased pair and at a distinct pair. -/
theorem C9_sharing_mode_witness :
    createSwapChainSharing 0 0 = ⟨VkSharingMode.exclusive, 0, []⟩ ∧
    createSwapChainSharing 0 1 = ⟨VkSharingMode.concurrent, 2, [0, 1]⟩ :=
  ⟨(C9_sharing_mode 0 0).1 rfl, (C9_sharing_mode 0 1).2 (by decide)⟩

/-- The events of the submission path always extend the events accumulated
before it. -/
theorem drawFromFenceReset_events_extend (inp : DrawInput)
    (pre : List DrawEvent) :
    ∃ tail, (drawFromFenceReset inp pre).1 = pre ++ tail := by
  by_cases h1 : inp.submitResult = VkResult.success
  · by_cases h2 : inp.presentResult = VkResult.errorOutOfDateKHR ∨
        inp.presentResult = VkResult.suboptimalKHR ∨
        inp.framebufferResized = true
    · refine ⟨[DrawEvent.resetFences inp.currentFrame,
        DrawEvent.resetCommandBuffer inp.currentFrame,
        DrawEvent.recordCommandBuffer inp.currentFrame,
        DrawEvent.updateUniformBuffer inp.currentFrame,
        DrawEvent.queueSubmit inp.currentFrame, DrawEvent.queuePresent,
        DrawEvent.clearResizedFlag, DrawEvent.recreateSwapChain], ?_⟩
      simp [drawFromFenceReset, h1, h2]
    · refine ⟨[DrawEvent.resetFences inp.currentFrame,
        DrawEvent.resetCommandBuffer inp.currentFrame,
        DrawEvent.recordCommandBuffer inp.currentFrame,
        DrawEvent.updateUniformBuffer inp.currentFrame,
        DrawEvent.queueSubmit inp.currentFrame, DrawEvent.queuePresent], ?_⟩
      push_neg at h2
      by_cases h3 : inp.presentResult = VkResult.success
      · simp [drawFromFenceReset, h1, h2.1, h2.2.1, h2.2.2, h3]
      · simp [drawFromFenceReset, h1, h2.1, h2.2.1, h2.2.2, h3]
  · refine ⟨[DrawEvent.resetFences inp.currentFrame,
      DrawEvent.resetCommandBuffer inp.currentFrame,
      DrawEvent.recordCommandBuffer inp.currentFrame,
      DrawEvent.updateUniformBuffer inp.currentFrame,
      DrawEvent.queueSubmit inp.currentFrame], ?_⟩
    simp [drawFromFenceReset, h1]

/-- Claim C10: every in-flight fence is created in the signaled state by
createSyncObjects, waiting on such a fence does not block, and the first
action of every draw call is the fence wait on the current frame slot — so
the first Draw for each slot returns from its fence wait without blocking
even though no submission has signaled that fence yet. -/
theorem C10_fences_signaled (maxFramesInFlight slot : Nat) (inp : DrawInput)
    (hslot : slot < maxFramesInFlight) (hframe : inp.currentFrame = slot) :
    (∃ fence, (GraphicsContext.createSyncObjects maxFramesInFlight)[slot]? =
        some fence ∧ fence.signaled = true ∧
        vkWaitForFencesBlocks fence = false) ∧
    (GraphicsContext.Draw inp).1.head? = some (DrawEvent.waitFences slot) := by
  constructor
  · refine ⟨vkCreateFence createSyncObjectsFenceInfo, ?_, rfl, rfl⟩
    rw [GraphicsContext.createSyncObjects, List.getElem?_replicate,
      if_pos hslot]
  · rw [Draw_eq_drawFromFenceReset inp]
    obtain ⟨tail, htail⟩ := drawFromFenceReset_events_extend inp
      ([DrawEvent.waitFences inp.currentFrame] ++
        (if inp.acquireResult ≠ VkResult.success then
          [DrawEvent.logError "failed to acquireNextImage!"] else []))
    rw [htail, hframe]
    rfl

/-- Claim C10, witnessed at two frame slots with slot 0 current. -/
theorem C10_fences_signaled_witness :
    (∃ fence, (GraphicsContext.createSyncObjects 2)[0]? = some fence ∧
      fence.signaled = true ∧ vkWaitForFencesBlocks fence = false) ∧
    (GraphicsContext.Draw
      ⟨VkResult.success, VkResult.success, VkResult.success,
        false, 0, 2⟩).1.head? = some (DrawEvent.waitFences 0) :=
  C10_fences_signaled 2 0
    ⟨VkResult.success, VkResult.success, VkResult.success, false, 0, 2⟩
    (by decide) rfl
